import Mathlib

/-!
Shallow embedding of `src/examples/python-agent/agent.py`.

The script reads one JSON request from stdin, extracts `prompt` and
`context.workingDirectory` (key errors propagate uncaught), then inside a
try/except block constructs a `ClaudeAgentOptions` with a fixed six-tool
allowlist, consumes the async query stream, keeps the `result`/`subtype`
fields of the last result message seen, and prints a single JSON response.
Exceptions inside the try block are downgraded to an error response.

The embedding models the stream as a list of messages, the SDK's behaviour
for one invocation as an `Exec` value (normal completion, an exception
mid-iteration after some consumed messages, or an exception while the
options object is being built), and the process outcome as either an
abnormal termination (no response written) or a single written response.
-/

/-- A message yielded by the SDK query stream: either a result message
carrying an optional `result` payload and a `subtype` string, or any other
message variant, which the script receives but ignores. -/
inductive Msg where
  | result (res : Option String) (subtype : String)
  | other
  deriving DecidableEq

/-- The response object the script serializes to stdout: `output`,
`success`, and an `error` field present only on the failure path. -/
structure Response where
  output : String
  success : Bool
  error : Option String
  deriving DecidableEq

/-- The options object handed to the SDK query call. -/
structure ClaudeAgentOptions where
  cwd : String
  allowed_tools : List String
  deriving DecidableEq

/-- Lines 17-20 of agent.py: build the options with the extracted working
directory and the literal six-tool allowlist. -/
def mkOptions (cwd : String) : ClaudeAgentOptions :=
  ⟨cwd, ["Read", "Write", "Edit", "Glob", "Grep", "Bash"]⟩

/-- Whether a message is a result message (the `isinstance` test). -/
def isResult : Msg → Bool
  | .result _ _ => true
  | .other => false

/-- Whether a message carries no result text: true for non-result messages
and for result messages whose `result` payload is null. -/
def nullResult : Msg → Bool
  | .result (some _) _ => false
  | _ => true

/-- One iteration of the async-for loop body (lines 22-25): a result
message overwrites the (output, success) pair with its payload (empty
string when null) and the test of its subtype against "success"; any other
message leaves the pair unchanged. -/
def step : String × Bool → Msg → String × Bool
  | st, .other => st
  | _, .result res subtype => (res.getD "", subtype == "success")

/-- Consuming the whole stream to completion: fold the loop body over the
messages, starting from output = "" and success = false (lines 13-14). -/
def processStream (msgs : List Msg) : String × Bool :=
  msgs.foldl step ("", false)

/-- How the external SDK behaves inside the try block of one invocation:
the options construction raises, the stream raises after yielding some
consumed messages, or the stream completes normally with a message list. -/
inductive Exec where
  | optsRaise (e : String)
  | streamRaise (consumed : List Msg) (e : String)
  | streamOk (msgs : List Msg)
  deriving DecidableEq

/-- The try/except block (lines 16-29): on normal completion the response
is built from the stream fold; on any exception the partially accumulated
output is discarded and the response is empty output, success false, and
the exception text in the `error` field. -/
def runTry (ex : Exec) : Response :=
  match ex with
  | .optsRaise e => ⟨"", false, some e⟩
  | .streamRaise _ e => ⟨"", false, some e⟩
  | .streamOk msgs =>
    let p := processStream msgs
    ⟨p.1, p.2, none⟩

/-- The parsed shape of stdin after `json.loads`: each field may be absent. -/
structure RawContext where
  workingDirectory : Option String
  deriving DecidableEq

/-- The parsed top-level request object; `none` fields model missing keys. -/
structure RawRequest where
  prompt : Option String
  context : Option RawContext
  deriving DecidableEq

/-- Lines 9-11: `json.loads` (a `none` argument models malformed JSON)
followed by the two direct field accesses; any missing key makes the whole
extraction fail, uncaught. -/
def extractRequest : Option RawRequest → Option (String × String)
  | none => none
  | some req =>
    match req.prompt, req.context with
    | some p, some ctx =>
      match ctx.workingDirectory with
      | some wd => some (p, wd)
      | none => none
    | _, _ => none

/-- What the process does overall: terminate abnormally with no JSON
response written, or write exactly one response and exit normally. -/
inductive ProcOutcome where
  | abnormal
  | wrote (r : Response)
  deriving DecidableEq

/-- The whole `run_agent` coroutine. Parsing and field extraction happen
before the try block is entered, so their failures terminate the process
abnormally regardless of how the SDK would have behaved; on success the
prompt and the options built from the working directory are handed to the
SDK (modelled by the `sdk` parameter) and the try/except result is printed. -/
def run_agent (stdin : Option RawRequest)
    (sdk : String → ClaudeAgentOptions → Exec) : ProcOutcome :=
  match extractRequest stdin with
  | none => .abnormal
  | some (p, wd) => .wrote (runTry (sdk p (mkOptions wd)))

/-- The `result` and `subtype` fields of the last result message of a
stream, if the stream contains any result message. -/
def lastResult : List Msg → Option (Option String × String)
  | [] => none
  | m :: rest =>
    match lastResult rest with
    | some x => some x
    | none =>
      match m with
      | .result r s => some (r, s)
      | .other => none

/-- The stream fold is determined by the last result message: from any
starting pair, folding the loop body yields the start when the stream has
no result message, and the last result message's capture otherwise. -/
theorem foldl_step_eq (msgs : List Msg) : ∀ init : String × Bool,
    msgs.foldl step init =
      match lastResult msgs with
      | none => init
      | some (r, s) => (r.getD "", s == "success") := by
  induction msgs with
  | nil => intro init; rfl
  | cons m rest ih =>
    intro init
    cases m with
    | other =>
      show rest.foldl step init = _
      rw [ih init]
      cases h : lastResult rest <;> simp [lastResult, h]
    | result r s =>
      show rest.foldl step (r.getD "", s == "success") = _
      rw [ih (r.getD "", s == "success")]
      cases h : lastResult rest <;> simp [lastResult, h]

/-- Folding the loop body over a stream with no result messages leaves the
(output, success) pair unchanged. -/
theorem foldl_step_no_result (msgs : List Msg) : ∀ st : String × Bool,
    (∀ m ∈ msgs, isResult m = false) → msgs.foldl step st = st := by
  induction msgs with
  | nil => intro st _; rfl
  | cons m rest ih =>
    intro st h
    cases m with
    | other =>
      exact ih st fun x hx => h x (List.mem_cons_of_mem _ hx)
    | result r s =>
      have := h (.result r s) (List.mem_cons_self _ _)
      simp [isResult] at this

/-- Folding the loop body over a stream whose result messages all carry a
null payload keeps the output component empty. -/
theorem foldl_step_null (msgs : List Msg) : ∀ b : Bool,
    (∀ m ∈ msgs, nullResult m = true) →
    (msgs.foldl step ("", b)).1 = "" := by
  induction msgs with
  | nil => intro b _; rfl
  | cons m rest ih =>
    intro b h
    cases m with
    | other =>
      exact ih b fun x hx => h x (List.mem_cons_of_mem _ hx)
    | result r s =>
      cases r with
      | none =>
        exact ih (s == "success") fun x hx => h x (List.mem_cons_of_mem _ hx)
      | some a =>
        have := h (.result (some a) s) (List.mem_cons_self _ _)
        simp [nullResult] at this

/-- C1: for every stream containing at least one result message, the
`success` field of the emitted response is true iff the subtype of the
last result message equals the literal "success". -/
theorem C1_last_subtype_decides_success (msgs : List Msg)
    (r : Option String) (s : String) (h : lastResult msgs = some (r, s)) :
    (runTry (.streamOk msgs)).success = (s == "success") := by
  simp [runTry, processStream, foldl_step_eq, h]

/-- Witness for C1 on a concrete one-message stream. -/
theorem C1_witness :
    lastResult [Msg.result (some "done") "success"] = some (some "done", "success") ∧
    (runTry (.streamOk [Msg.result (some "done") "success"])).success =
      ("success" == "success") :=
  ⟨rfl, C1_last_subtype_decides_success _ (some "done") "success" rfl⟩

/-- C2: any exception raised while constructing the options or while
iterating the stream is caught, captured output is discarded, and the
process still writes the single response with empty output, success false,
and the exception text. -/
theorem C2_exceptions_caught (p wd e : String) (consumed : List Msg) :
    run_agent (some ⟨some p, some ⟨some wd⟩⟩)
        (fun _ _ => .streamRaise consumed e) = .wrote ⟨"", false, some e⟩ ∧
    run_agent (some ⟨some p, some ⟨some wd⟩⟩)
        (fun _ _ => .optsRaise e) = .wrote ⟨"", false, some e⟩ :=
  ⟨rfl, rfl⟩

/-- C3: when a result message is followed only by non-result messages,
it alone determines the final (output, success) pair, overwriting every
earlier result message. -/
theorem C3_last_result_overwrites (pre post : List Msg)
    (r : Option String) (s : String)
    (h : ∀ m ∈ post, isResult m = false) :
    processStream (pre ++ Msg.result r s :: post) =
      (r.getD "", s == "success") := by
  simp only [processStream, List.foldl_append, List.foldl_cons]
  rw [foldl_step_no_result post _ h]
  rfl

/-- Witness for C3: two result messages of differing subtypes, the later
one winning. -/
theorem C3_witness :
    processStream [Msg.result (some "first") "error_during_execution",
      Msg.result (some "second") "success"] = ("second", true) := by
  have h := C3_last_result_overwrites
    [Msg.result (some "first") "error_during_execution"] []
    (some "second") "success" (by simp)
  simpa using h

/-- C4: failures of stdin parsing or field extraction are not caught and
terminate the process abnormally with no response written, whatever the
SDK would have done; whereas once extraction succeeds, an exception on the
query path is caught and a response is still written. -/
theorem C4_parse_failures_uncaught (stdin : Option RawRequest)
    (sdk : String → ClaudeAgentOptions → Exec) :
    (extractRequest stdin = none → run_agent stdin sdk = .abnormal) ∧
    (extractRequest stdin ≠ none → ∀ consumed e,
      run_agent stdin (fun _ _ => .streamRaise consumed e) =
        .wrote ⟨"", false, some e⟩) := by
  constructor
  · intro h
    simp [run_agent, h]
  · intro h consumed e
    cases hx : extractRequest stdin with
    | none => exact absurd hx h
    | some v => simp [run_agent, hx, runTry]

/-- Witness for C4: a request missing the `prompt` key terminates
abnormally, while a well-formed request whose stream raises still writes
the error response. -/
theorem C4_witness :
    run_agent (some ⟨none, some ⟨some "/tmp"⟩⟩)
      (fun _ _ => .streamOk []) = .abnormal ∧
    run_agent (some ⟨some "p", some ⟨some "/tmp"⟩⟩)
      (fun _ _ => .streamRaise [] "connection lost") =
        .wrote ⟨"", false, some "connection lost"⟩ :=
  ⟨(C4_parse_failures_uncaught (some ⟨none, some ⟨some "/tmp"⟩⟩)
      (fun _ _ => .streamOk [])).1 rfl,
   (C4_parse_failures_uncaught (some ⟨some "p", some ⟨some "/tmp"⟩⟩)
      (fun _ _ => .streamOk [])).2 (by decide) [] "connection lost"⟩

/-- C5: a stream with no result messages (including the empty stream)
yields exactly empty output, success false, and no error field. -/
theorem C5_no_result_messages (msgs : List Msg)
    (h : ∀ m ∈ msgs, isResult m = false) :
    runTry (.streamOk msgs) = ⟨"", false, none⟩ := by
  simp [runTry, processStream, foldl_step_no_result msgs _ h]

/-- Witness for C5 on a stream of one ignored message. -/
theorem C5_witness :
    runTry (.streamOk [Msg.other]) = ⟨"", false, none⟩ :=
  C5_no_result_messages [Msg.other] (by decide)

/-- C6: a null result payload is captured as the empty string, and a
stream ending in a result message with subtype "error_max_turns" and null
payload yields exactly empty output and success false. -/
theorem C6_null_payload_empty_output (st : String × Bool) (s : String)
    (pre : List Msg) :
    (step st (Msg.result none s)).1 = "" ∧
    runTry (.streamOk (pre ++ [Msg.result none "error_max_turns"])) =
      ⟨"", false, none⟩ := by
  refine ⟨rfl, ?_⟩
  have hb : ("error_max_turns" == "success") = false := by decide
  simp [runTry, processStream, List.foldl_append, step, hb]

/-- C7: when extraction succeeds, the query receives exactly the options
built from the extracted working directory, whose allowlist is exactly the
six named tools and whose cwd is the extracted path. -/
theorem C7_options_allowlist (stdin : Option RawRequest) (p wd : String)
    (sdk : String → ClaudeAgentOptions → Exec)
    (h : extractRequest stdin = some (p, wd)) :
    run_agent stdin sdk = .wrote (runTry (sdk p (mkOptions wd))) ∧
    (mkOptions wd).allowed_tools =
      ["Read", "Write", "Edit", "Glob", "Grep", "Bash"] ∧
    (mkOptions wd).cwd = wd := by
  refine ⟨?_, rfl, rfl⟩
  simp [run_agent, h]

/-- Witness for C7 on a concrete well-formed request. -/
theorem C7_witness :
    run_agent (some ⟨some "p", some ⟨some "/w"⟩⟩) (fun _ _ => .streamOk []) =
      .wrote (runTry ((fun _ _ => Exec.streamOk []) "p" (mkOptions "/w"))) ∧
    (mkOptions "/w").allowed_tools =
      ["Read", "Write", "Edit", "Glob", "Grep", "Bash"] ∧
    (mkOptions "/w").cwd = "/w" :=
  C7_options_allowlist (some ⟨some "p", some ⟨some "/w"⟩⟩) "p" "/w"
    (fun _ _ => .streamOk []) rfl

/-- C8: a non-result message can be inserted or removed anywhere in the
stream without changing the (output, success) pair. -/
theorem C8_nonresult_ignored (pre post : List Msg) (m : Msg)
    (h : isResult m = false) :
    processStream (pre ++ m :: post) = processStream (pre ++ post) := by
  cases m with
  | result r s => simp [isResult] at h
  | other =>
    simp [processStream, List.foldl_append, List.foldl_cons, step]

/-- Witness for C8: dropping a trailing non-result message. -/
theorem C8_witness :
    processStream [Msg.result (some "a") "success", Msg.other] =
      processStream [Msg.result (some "a") "success"] :=
  C8_nonresult_ignored [Msg.result (some "a") "success"] [] Msg.other rfl

/-- C9: when every result message of a stream has a null payload, the
`output` field coincides with the one produced for a stream with no result
messages at all; both are the empty string. -/
theorem C9_null_collapse (msgs : List Msg)
    (h : ∀ m ∈ msgs, nullResult m = true) :
    (runTry (.streamOk msgs)).output = (runTry (.streamOk [])).output ∧
    (runTry (.streamOk msgs)).output = "" := by
  have hz := foldl_step_null msgs false h
  constructor <;> simpa [runTry, processStream] using hz

/-- Witness for C9 on a stream of one null result and one other message. -/
theorem C9_witness :
    (runTry (.streamOk [Msg.result none "success", Msg.other])).output =
      (runTry (.streamOk [])).output :=
  (C9_null_collapse [Msg.result none "success", Msg.other] (by decide)).1

/-- C10: a stream ending with a result message of subtype "success" and a
null payload yields exactly empty output and success true: success does
not imply a non-empty output. -/
theorem C10_success_empty_output (pre : List Msg) :
    runTry (.streamOk (pre ++ [Msg.result none "success"])) =
      ⟨"", true, none⟩ := by
  have hb : ("success" == "success") = true := by decide
  simp [runTry, processStream, List.foldl_append, step, hb]
